import Mathlib

/-!
Verification of `boss.py` (shrideh/streambot), a zeromq-based multi-threading
task distributing framework.

Shallow embedding conventions:
  * Task ids and commands are opaque values; we model both as `Nat`.
  * Task statuses are the strings the source uses: `"START"` (the spec's
    `Pending`), `"DONE"` (`Done`), `"FAILED"` (`Failed`), and the reserved
    `"STOP"` sentinel.
  * The module-level mutable globals (`_TASK_OUT_SOCKET`, `_TASKS`) together
    with the messages pushed on the distribution channel and the `_print` log
    are gathered into an explicit state record `BossState`; the procedures
    `assign_task` and `have_all_tasks_done` become state-passing functions.
  * The I/O behaviour of `_sync_workers` and `start` is modelled as the
    trace of channel events those routines perform, in program order.
All definitions live in namespace `Boss` (core already has a `Task` type).
-/

namespace Boss

/-- `Task` from `boss.py` (lines 49-74): `id`, `command` and a string `status`. -/
structure Task where
  id : Nat
  command : Nat
  status : String
deriving DecidableEq

/-- `Task.__init__(task_id, command)` with the status argument left at its
default `'START'` (line 50). -/
def Task.init (task_id : Nat) (command : Nat) : Task :=
  { id := task_id, command := command, status := "START" }

/-- `Task.__init__(task_id, command, status)` with an explicit status
argument (line 50). -/
def Task.initWith (task_id : Nat) (command : Nat) (status : String) : Task :=
  { id := task_id, command := command, status := status }

/-- `Task.set_done` (lines 61-62): `self.status = 'DONE'`. -/
def Task.set_done (t : Task) : Task :=
  { t with status := "DONE" }

/-- `Task.is_done` (lines 64-65): `'DONE' == self.status`. -/
def Task.is_done (t : Task) : Bool :=
  "DONE" == t.status

/-- `Task.set_failed` (lines 67-68): `self.status = 'FAILED'`. -/
def Task.set_failed (t : Task) : Task :=
  { t with status := "FAILED" }

/-- `Task.is_failed` (lines 70-71): `'FAILED' == self.status`. -/
def Task.is_failed (t : Task) : Bool :=
  "FAILED" == t.status

/-- The status-mutating operations of `Task` (`set_done`, `set_failed`). -/
inductive TaskOp where
  | set_done : TaskOp
  | set_failed : TaskOp
deriving DecidableEq

/-- Apply one `Task` operation. -/
def TaskOp.apply : TaskOp → Task → Task
  | TaskOp.set_done, t => t.set_done
  | TaskOp.set_failed, t => t.set_failed

/-- Apply a sequence of `Task` operations in order. -/
def applyOps (ops : List TaskOp) (t : Task) : Task :=
  ops.foldl (fun t op => op.apply t) t

/-- The JSON dictionary exchanged on the channels: `task.__dict__` has exactly
the keys `id`, `command`, `status`. -/
structure TaskMsg where
  id : Nat
  command : Nat
  status : String
deriving DecidableEq

/-- `task.__dict__` as sent by `send_json` (lines 141, 285). -/
def Task.toMsg (t : Task) : TaskMsg :=
  { id := t.id, command := t.command, status := t.status }

/-- The `Task` a worker builds from a real task message (line 135):
`Task(task_msg['id'], task_msg['command'])`, then `set_done` iff the
user handler `action` returns true (lines 138-139). -/
def worker_result_task (action : Task → Bool) (msg : TaskMsg) : Task :=
  let task := Task.init msg.id msg.command
  if action task then task.set_done else task

/-- One iteration of `_WorkerThread.run`'s task branch (lines 129-144):
`none` when the message carries the `'STOP'` sentinel status (the loop
exits, line 132-133), otherwise `some` of the result message sent to the
collector via `result_out.send_json(task.__dict__)` (line 141). -/
def worker_step (action : Task → Bool) (msg : TaskMsg) : Option TaskMsg :=
  if msg.status = "STOP" then none
  else some (Task.toMsg (worker_result_task action msg))

/-- The `Task` the sinker writes into the registry for a result message
(line 192): `Task(task_msg['id'], task_msg['command'], task_msg['status'])`. -/
def sinker_task (msg : TaskMsg) : Task :=
  Task.initWith msg.id msg.command msg.status

/-- The `_print` messages `assign_task` can emit, with their interpolated
data (lines 274, 279, 284). -/
inductive LogMsg where
  | errNotStarted : LogMsg
  | taskProcessed : Nat → LogMsg
  | sendTask : Nat → LogMsg
deriving DecidableEq

/-- The module-level mutable state of `boss.py` that `assign_task` and
`have_all_tasks_done` touch: whether `_TASK_OUT_SOCKET` is set (not `None`),
the `_TASKS` dict (as an insertion-ordered association list), the messages
pushed so far on the task-distribution PUSH socket, and the `_print` log. -/
structure BossState where
  task_out_socket : Bool
  tasks : List (Nat × Task)
  sent : List TaskMsg
  log : List LogMsg
deriving DecidableEq

/-- Dictionary lookup `_TASKS[id]` as an association-list search. -/
def lookupTask (tasks : List (Nat × Task)) (id : Nat) : Option Task :=
  (tasks.find? (fun kv => kv.1 == id)).map Prod.snd

/-- `assign_task(task)` (lines 266-285): if `_TASK_OUT_SOCKET` is `None`,
print an error and return; if `task.id in _TASKS`, print and return;
otherwise store `_TASKS[task.id] = task`, print, and
`_TASK_OUT_SOCKET.send_json(task.__dict__)`. -/
def assign_task (s : BossState) (task : Task) : BossState :=
  if !s.task_out_socket then
    { s with log := s.log ++ [LogMsg.errNotStarted] }
  else if (lookupTask s.tasks task.id).isSome then
    { s with log := s.log ++ [LogMsg.taskProcessed task.id] }
  else
    { s with
        tasks := s.tasks ++ [(task.id, task)],
        log := s.log ++ [LogMsg.sendTask task.id],
        sent := s.sent ++ [task.toMsg] }

/-- The `for k, v in _TASKS.items()` loop of `have_all_tasks_done`
(lines 293-297): flag starts true, set to false and break at the first
entry that is not done. -/
def have_all_tasks_done_loop : List (Nat × Task) → Bool
  | [] => true
  | kv :: rest => if !kv.2.is_done then false else have_all_tasks_done_loop rest

/-- `have_all_tasks_done()` (lines 288-299), as a state-passing function:
it reads `_TASKS` under the lock and returns the flag; the global state is
returned unchanged because the body never writes it. -/
def have_all_tasks_done (s : BossState) : Bool × BossState :=
  (have_all_tasks_done_loop s.tasks, s)

/-- The channel events `start` performs, in program order (lines 220-250):
binding the acknowledgement REP socket, starting the sinker, starting each
worker, the receive/reply pairs of `_sync_workers` (indexed by the value of
`num_active_workers` at that iteration), and finally
binding the task-distribution PUSH socket `_TASK_OUT_SOCKET`. -/
inductive Event where
  | bindAck : Event
  | startSinker : Event
  | startWorker : Nat → Event
  | syncRecv : Nat → Event
  | syncSend : Nat → Event
  | bindTaskOut : Event
deriving DecidableEq

/-- The `while num_active_workers < num_workers` loop of `_sync_workers`
(lines 212-217), as the trace of its channel events: at each iteration an
`ack_in.recv()` followed immediately by `ack_in.send(b'')`, then the
counter increments. -/
def sync_workers_loop (num_active_workers num_workers : Nat) : List Event :=
  if h : num_active_workers < num_workers then
    Event.syncRecv num_active_workers :: Event.syncSend num_active_workers ::
      sync_workers_loop (num_active_workers + 1) num_workers
  else
    []
termination_by num_workers - num_active_workers
decreasing_by omega

/-- `_sync_workers(ack_in, num_workers)` (lines 206-217): the loop entered
with `num_active_workers = 0`. -/
def sync_workers (num_workers : Nat) : List Event :=
  sync_workers_loop 0 num_workers

/-- Everything `start` does before binding `_TASK_OUT_SOCKET`
(lines 228-245): bind the ack socket, start the sinker, start the
`num_workers` workers, run `_sync_workers`. -/
def startPre (num_workers : Nat) : List Event :=
  [Event.bindAck, Event.startSinker] ++
    (List.range num_workers).map Event.startWorker ++
    sync_workers num_workers

/-- The full channel-event trace of a non-raising run of
`start(action, num_workers)` (lines 220-250): `startPre` followed by the
bind of the task-distribution PUSH socket (lines 249-250). -/
def startTrace (num_workers : Nat) : List Event :=
  [Event.bindAck, Event.startSinker] ++
    (List.range num_workers).map Event.startWorker ++
    sync_workers num_workers ++ [Event.bindTaskOut]

/-- Whether an event is a readiness receive of the startup barrier. -/
def Event.isSyncRecv : Event → Bool
  | Event.syncRecv _ => true
  | _ => false

/-- Whether an event is a release reply of the startup barrier. -/
def Event.isSyncSend : Event → Bool
  | Event.syncSend _ => true
  | _ => false

/-- The barrier loop from counter `a` to bound `a + k` is the concatenation
of the receive/reply pairs for counters `a, a+1, ..., a+k-1`. -/
lemma sync_workers_loop_eq (k a : Nat) :
    sync_workers_loop a (a + k) =
      ((List.range' a k).map (fun i => [Event.syncRecv i, Event.syncSend i])).flatten := by
  induction k generalizing a with
  | zero =>
      rw [sync_workers_loop]
      simp
  | succ k ih =>
      rw [sync_workers_loop]
      have h : a < a + (k + 1) := by omega
      have ha : a + (k + 1) = (a + 1) + k := by omega
      simp only [h, dif_pos, List.range'_succ, List.map_cons, List.flatten_cons]
      rw [ha, ih (a + 1)]
      simp

/-- `_sync_workers` with `num_workers = n` performs exactly the
receive/reply pairs for counters `0, ..., n-1`, in order. -/
lemma sync_workers_eq (n : Nat) :
    sync_workers n =
      ((List.range n).map (fun i => [Event.syncRecv i, Event.syncSend i])).flatten := by
  have h := sync_workers_loop_eq n 0
  simp only [Nat.zero_add] at h
  rw [sync_workers, h, List.range_eq_range']

lemma countP_pairs_recv (l : List Nat) :
    ((l.map (fun i => [Event.syncRecv i, Event.syncSend i])).flatten).countP
      Event.isSyncRecv = l.length := by
  induction l with
  | nil => simp
  | cons a l ih => simp [Event.isSyncRecv, Event.isSyncSend, ih]

lemma countP_pairs_send (l : List Nat) :
    ((l.map (fun i => [Event.syncRecv i, Event.syncSend i])).flatten).countP
      Event.isSyncSend = l.length := by
  induction l with
  | nil => simp
  | cons a l ih => simp [Event.isSyncRecv, Event.isSyncSend, ih]

lemma pair_sublist_join (l : List Nat) (i : Nat) (h : i ∈ l) :
    List.Sublist [Event.syncRecv i, Event.syncSend i]
      ((l.map (fun j => [Event.syncRecv j, Event.syncSend j])).flatten) := by
  induction l with
  | nil => cases h
  | cons a l ih =>
      simp only [List.map_cons, List.flatten_cons]
      rcases List.mem_cons.mp h with h1 | h1
      · subst h1
        exact List.sublist_append_left _ _
      · exact (ih h1).trans (List.sublist_append_right _ _)

/-- The task-distribution bind is not among the events `start` performs
before it. -/
lemma bindTaskOut_not_mem_startPre (n : Nat) : Event.bindTaskOut ∉ startPre n := by
  intro hmem
  rw [startPre, sync_workers_eq] at hmem
  simp [List.mem_flatten] at hmem

lemma applyOps_cons (op : TaskOp) (ops : List TaskOp) (t : Task) :
    applyOps (op :: ops) t = applyOps ops (op.apply t) := rfl

/-- After any sequence of operations a task's status is its original one,
`'DONE'`, or `'FAILED'`. -/
lemma applyOps_status_cases (ops : List TaskOp) (t : Task) :
    (applyOps ops t).status = t.status ∨ (applyOps ops t).status = "DONE" ∨
      (applyOps ops t).status = "FAILED" := by
  induction ops generalizing t with
  | nil => left; rfl
  | cons op ops ih =>
      rw [applyOps_cons]
      rcases ih (op.apply t) with h | h | h
      · cases op
        · right; left; rw [h]; rfl
        · right; right; rw [h]; rfl
      · right; left; exact h
      · right; right; exact h

/-- C9: For every id and command, a Task constructed without an explicit
status argument has the default status `'START'` (the spec's `Pending`), and
its `id` and `command` fields equal the arguments supplied. -/
theorem C9_task_default_status (task_id command : Nat) :
    (Task.init task_id command).status = "START" ∧
    (Task.init task_id command).id = task_id ∧
    (Task.init task_id command).command = command :=
  ⟨rfl, rfl, rfl⟩

/-- C5: For every real (non-`'STOP'`) task message a worker processes, if the
handler returns true the task is marked `'DONE'` in the message sent on the
result channel; if the handler returns false the sent status is `'START'`
(the spec's `Pending`), not `'FAILED'`. -/
theorem C5_worker_handler_outcome (action : Task → Bool) (msg : TaskMsg)
    (hmsg : msg.status ≠ "STOP") :
    (action (Task.init msg.id msg.command) = true →
      worker_step action msg = some (TaskMsg.mk msg.id msg.command "DONE")) ∧
    (action (Task.init msg.id msg.command) = false →
      worker_step action msg = some (TaskMsg.mk msg.id msg.command "START") ∧
      (TaskMsg.mk msg.id msg.command "START").status ≠ "FAILED") := by
  constructor
  · intro h
    simp only [Task.init] at h
    simp [worker_step, hmsg, worker_result_task, h, Task.set_done, Task.init, Task.toMsg]
  · intro h
    simp only [Task.init] at h
    refine ⟨?_, show ("START" : String) ≠ "FAILED" by decide⟩
    simp [worker_step, hmsg, worker_result_task, h, Task.init, Task.toMsg]

/-- Witness for C5 at a concrete handler and message. -/
theorem C5_witness :
    worker_step (fun _ => true) (TaskMsg.mk 1 2 "START") =
      some (TaskMsg.mk 1 2 "DONE") :=
  (C5_worker_handler_outcome (fun _ => true) (TaskMsg.mk 1 2 "START") (by decide)).1 rfl

/-- C10: The worker rebuilds the task from only the message's id and command,
so its result (and hence the Task the sinker records) does not depend on the
submitted status: it is the constructor's default transformed by the
handler's outcome. -/
theorem C10_result_ignores_submitted_status (action : Task → Bool) (msg : TaskMsg)
    (hmsg : msg.status ≠ "STOP") :
    worker_step action msg = worker_step action (TaskMsg.mk msg.id msg.command "START") ∧
    ∃ r, worker_step action msg = some r ∧
      sinker_task r = Task.initWith msg.id msg.command
        (if action (Task.init msg.id msg.command) then "DONE" else "START") := by
  constructor
  · simp [worker_step, hmsg, worker_result_task]
  · refine ⟨Task.toMsg (worker_result_task action msg), by simp [worker_step, hmsg], ?_⟩
    by_cases h : action (Task.init msg.id msg.command) = true
    · simp only [Task.init] at h
      simp [worker_result_task, sinker_task, h, Task.init, Task.initWith,
        Task.set_done, Task.toMsg]
    · simp only [Task.init] at h
      simp [worker_result_task, sinker_task, h, Task.init, Task.initWith, Task.toMsg]

/-- Witness for C10: a message submitted with status `'DONE'` yields the same
worker result as the same message with the default status. -/
theorem C10_witness :
    worker_step (fun _ => false) (TaskMsg.mk 1 2 "DONE") =
      worker_step (fun _ => false) (TaskMsg.mk 1 2 "START") :=
  (C10_result_ignores_submitted_status (fun _ => false) (TaskMsg.mk 1 2 "DONE")
    (by decide)).1

/-- C6 counterexample: a task whose status is `'DONE'` is moved to `'FAILED'`
by `set_failed`, so "once Done, no operation ever changes it back to Pending
or to Failed" is false as stated. -/
theorem C6_counterexample :
    (Task.initWith 0 0 "DONE").status = "DONE" ∧
    (applyOps [TaskOp.set_failed] (Task.initWith 0 0 "DONE")).status = "FAILED" ∧
    ("FAILED" : String) ≠ "DONE" := by decide

/-- C6 amended: no operation ever returns a status to `'START'` (the spec's
`Pending`); once `'DONE'`, every sequence of operations leaves the status
`'DONE'` or `'FAILED'` (`set_failed` can still move a done task to
`'FAILED'`). -/
theorem C6_amended_no_return_to_pending :
    (∀ (op : TaskOp) (t : Task), (op.apply t).status ≠ "START") ∧
    (∀ (t : Task) (ops : List TaskOp), t.status = "DONE" →
      (applyOps ops t).status = "DONE" ∨ (applyOps ops t).status = "FAILED") ∧
    (∀ (t : Task) (ops : List TaskOp),
      t.status ≠ "START" → (applyOps ops t).status ≠ "START") := by
  refine ⟨?_, ?_, ?_⟩
  · intro op t
    cases op
    · simp [TaskOp.apply, Task.set_done]
    · simp [TaskOp.apply, Task.set_failed]
  · intro t ops ht
    rcases applyOps_status_cases ops t with h | h | h
    · left; rw [h, ht]
    · left; exact h
    · right; exact h
  · intro t ops ht
    rcases applyOps_status_cases ops t with h | h | h
    · rw [h]; exact ht
    · rw [h]; decide
    · rw [h]; decide

/-- Witness for C6 at a concrete done task and operation sequence. -/
theorem C6_witness :
    (TaskOp.apply TaskOp.set_failed (Task.initWith 0 0 "DONE")).status ≠ "START" ∧
    ((applyOps [TaskOp.set_done] (Task.initWith 0 0 "DONE")).status = "DONE" ∨
      (applyOps [TaskOp.set_done] (Task.initWith 0 0 "DONE")).status = "FAILED") :=
  ⟨C6_amended_no_return_to_pending.1 TaskOp.set_failed (Task.initWith 0 0 "DONE"),
   C6_amended_no_return_to_pending.2.1 (Task.initWith 0 0 "DONE") [TaskOp.set_done] rfl⟩

/-- The early-break flag loop computes "every entry is done". -/
lemma have_all_tasks_done_loop_iff (l : List (Nat × Task)) :
    have_all_tasks_done_loop l = true ↔ ∀ kv ∈ l, kv.2.status = "DONE" := by
  induction l with
  | nil => simp [have_all_tasks_done_loop]
  | cons kv rest ih =>
      by_cases h : kv.2.status = "DONE"
      · have hb : (("DONE" : String) == kv.2.status) = true := by
          rw [beq_iff_eq, h]
        simp [have_all_tasks_done_loop, Task.is_done, hb, h, ih]
      · have hb : (("DONE" : String) == kv.2.status) = false := by
          rw [beq_eq_false_iff_ne]
          exact fun hh => h hh.symm
        simp [have_all_tasks_done_loop, Task.is_done, hb, h]

/-- C3: `have_all_tasks_done` returns true iff every registry entry's status
is `'DONE'`; an entry whose status is `'START'` (the spec's `Pending`) or
`'FAILED'` makes it return false; the state is unchanged by the call. -/
theorem C3_allDone_iff (s : BossState) :
    ((have_all_tasks_done s).1 = true ↔ ∀ kv ∈ s.tasks, kv.2.status = "DONE") ∧
    (∀ kv ∈ s.tasks, (kv.2.status = "START" ∨ kv.2.status = "FAILED") →
      (have_all_tasks_done s).1 = false) ∧
    (have_all_tasks_done s).2 = s := by
  refine ⟨have_all_tasks_done_loop_iff s.tasks, ?_, rfl⟩
  intro kv hmem hst
  by_cases h : (have_all_tasks_done s).1 = true
  · exfalso
    have hdone := (have_all_tasks_done_loop_iff s.tasks).mp h kv hmem
    rcases hst with h1 | h1 <;> rw [hdone] at h1 <;> exact absurd h1 (by decide)
  · exact Bool.eq_false_iff.mpr h

/-- Witness for C3: a registry holding one failed task is not all-done. -/
theorem C3_witness :
    (have_all_tasks_done (BossState.mk true [(7, Task.initWith 7 0 "FAILED")] [] [])).1
      = false :=
  (C3_allDone_iff (BossState.mk true [(7, Task.initWith 7 0 "FAILED")] [] [])).2.1
    (7, Task.initWith 7 0 "FAILED") (by simp) (Or.inr rfl)

/-- C4: resubmitting a task whose id is already in the registry, after the
pool is started, changes neither the registry nor the messages sent on the
distribution channel; the entry for that id is untouched. -/
theorem C4_duplicate_is_noop (s : BossState) (task : Task)
    (hs : s.task_out_socket = true)
    (hdup : (lookupTask s.tasks task.id).isSome = true) :
    (assign_task s task).tasks = s.tasks ∧
    (assign_task s task).sent = s.sent ∧
    lookupTask (assign_task s task).tasks task.id = lookupTask s.tasks task.id := by
  simp [assign_task, hs, hdup]

/-- Witness for C4: resubmitting id 5 with a different payload and status
leaves the registry and the channel untouched. -/
theorem C4_witness :
    (assign_task (BossState.mk true [(5, Task.init 5 0)] [] [])
        (Task.initWith 5 1 "DONE")).tasks = [(5, Task.init 5 0)] ∧
    (assign_task (BossState.mk true [(5, Task.init 5 0)] [] [])
        (Task.initWith 5 1 "DONE")).sent = [] :=
  ⟨(C4_duplicate_is_noop (BossState.mk true [(5, Task.init 5 0)] [] [])
      (Task.initWith 5 1 "DONE") rfl (by decide)).1,
   (C4_duplicate_is_noop (BossState.mk true [(5, Task.init 5 0)] [] [])
      (Task.initWith 5 1 "DONE") rfl (by decide)).2.1⟩

lemma lookupTask_append_self (l : List (Nat × Task)) (k : Nat) (t : Task)
    (h : lookupTask l k = none) : lookupTask (l ++ [(k, t)]) k = some t := by
  induction l with
  | nil => simp [lookupTask]
  | cons kv rest ih =>
      by_cases hk : (kv.1 == k) = true
      · exfalso
        simp [lookupTask, List.find?, hk] at h
      · have h2 : lookupTask rest k = none := by
          simpa [lookupTask, List.find?, hk] using h
        simpa [lookupTask, List.find?, hk] using ih h2

/-- C7 counterexample: with an empty registry and the pool started,
submitting a task constructed with explicit status `'DONE'` inserts an entry
whose status is `'DONE'`, not the `Pending` default — so "inserts with status
Pending regardless of the submitted status field" is false as stated. -/
theorem C7_counterexample :
    (lookupTask (assign_task (BossState.mk true [] [] [])
        (Task.initWith 1 0 "DONE")).tasks 1).map Task.status = some "DONE" ∧
    some ("DONE" : String) ≠ some "START" := by decide

/-- C7 amended: for an absent id, `assign_task` after start inserts the
submitted task object itself (so the entry carries the caller's status field;
it is `'START'`, the spec's `Pending`, whenever the caller used the
constructor default) and then sends the task on the distribution channel. -/
theorem C7_amended_insert_and_push (s : BossState) (task : Task)
    (hs : s.task_out_socket = true)
    (habs : lookupTask s.tasks task.id = none) :
    lookupTask (assign_task s task).tasks task.id = some task ∧
    (assign_task s task).sent = s.sent ++ [task.toMsg] ∧
    (task.status = "START" →
      (lookupTask (assign_task s task).tasks task.id).map Task.status
        = some "START") := by
  have hstate : assign_task s task =
      { s with
          tasks := s.tasks ++ [(task.id, task)],
          log := s.log ++ [LogMsg.sendTask task.id],
          sent := s.sent ++ [task.toMsg] } := by
    simp [assign_task, hs, habs]
  have hlook : lookupTask (assign_task s task).tasks task.id = some task := by
    rw [hstate]
    exact lookupTask_append_self s.tasks task.id task habs
  refine ⟨hlook, by rw [hstate], ?_⟩
  intro hst
  rw [hlook]
  simp [hst]

/-- Witness for C7: submitting a default-constructed task to a started,
empty pool records it and pushes its message. -/
theorem C7_witness :
    lookupTask (assign_task (BossState.mk true [] [] []) (Task.init 3 4)).tasks 3
      = some (Task.init 3 4) ∧
    (assign_task (BossState.mk true [] [] []) (Task.init 3 4)).sent
      = [(Task.init 3 4).toMsg] :=
  ⟨(C7_amended_insert_and_push (BossState.mk true [] [] []) (Task.init 3 4) rfl rfl).1,
   (C7_amended_insert_and_push (BossState.mk true [] [] []) (Task.init 3 4) rfl rfl).2.1⟩

/-- C8: calling `assign_task` while `_TASK_OUT_SOCKET` is unset (before
`start` has completed) reports the error, drops the task, and leaves the
registry and the channel untouched. -/
theorem C8_not_started_reports_and_drops (s : BossState) (task : Task)
    (hs : s.task_out_socket = false) :
    (assign_task s task).tasks = s.tasks ∧
    (assign_task s task).sent = s.sent ∧
    lookupTask (assign_task s task).tasks task.id = lookupTask s.tasks task.id ∧
    (assign_task s task).log = s.log ++ [LogMsg.errNotStarted] := by
  simp [assign_task, hs]

/-- Witness for C8 at a concrete unstarted state. -/
theorem C8_witness :
    (assign_task (BossState.mk false [] [] []) (Task.init 9 0)).tasks = [] ∧
    (assign_task (BossState.mk false [] [] []) (Task.init 9 0)).sent = [] ∧
    (assign_task (BossState.mk false [] [] []) (Task.init 9 0)).log
      = [LogMsg.errNotStarted] :=
  ⟨(C8_not_started_reports_and_drops (BossState.mk false [] [] []) (Task.init 9 0) rfl).1,
   (C8_not_started_reports_and_drops (BossState.mk false [] [] []) (Task.init 9 0) rfl).2.1,
   (C8_not_started_reports_and_drops (BossState.mk false [] [] []) (Task.init 9 0) rfl).2.2.2⟩

/-- C2: for every `n ≥ 0`, `_sync_workers` performs exactly `n` readiness
receives and exactly `n` release replies, each reply immediately after its
receive (the trace is the concatenation of the `n` receive/reply pairs), and
`start` performs the task-distribution bind only after the routine returns:
the whole barrier trace is a suffix of everything `start` does before
binding `_TASK_OUT_SOCKET`, which is its last event. -/
theorem C2_sync_exact_pairs (n : Nat) :
    (sync_workers n).countP Event.isSyncRecv = n ∧
    (sync_workers n).countP Event.isSyncSend = n ∧
    sync_workers n =
      ((List.range n).map (fun i => [Event.syncRecv i, Event.syncSend i])).flatten ∧
    startTrace n = startPre n ++ [Event.bindTaskOut] ∧
    List.IsSuffix (sync_workers n) (startPre n) := by
  refine ⟨?_, ?_, sync_workers_eq n, ?_, ?_⟩
  · rw [sync_workers_eq]
    simpa using countP_pairs_recv (List.range n)
  · rw [sync_workers_eq]
    simpa using countP_pairs_send (List.range n)
  · simp [startTrace, startPre]
  · exact ⟨[Event.bindAck, Event.startSinker] ++ (List.range n).map Event.startWorker,
      by simp [startPre]⟩

/-- C1: in every (non-raising) run of `start`, the task-distribution PUSH
socket is bound only after the startup barrier has completed for all
`num_workers` workers: the bind is the unique last event of the trace, it
does not occur earlier, and each worker's readiness receive and release
reply both precede it, in that order. -/
theorem C1_bind_only_after_barrier (n : Nat) :
    startTrace n = startPre n ++ [Event.bindTaskOut] ∧
    Event.bindTaskOut ∉ startPre n ∧
    ∀ i, i < n →
      List.Sublist [Event.syncRecv i, Event.syncSend i] (startPre n) := by
  refine ⟨by simp [startTrace, startPre], bindTaskOut_not_mem_startPre n, ?_⟩
  intro i hi
  have h1 : List.Sublist [Event.syncRecv i, Event.syncSend i] (sync_workers n) := by
    rw [sync_workers_eq]
    exact pair_sublist_join (List.range n) i (List.mem_range.mpr hi)
  have h2 : List.Sublist (sync_workers n) (startPre n) := by
    rw [startPre]
    exact List.sublist_append_right _ _
  exact h1.trans h2

/-- Witness for C1 at one worker. -/
theorem C1_witness :
    startTrace 1 = startPre 1 ++ [Event.bindTaskOut] ∧
    Event.bindTaskOut ∉ startPre 1 ∧
    List.Sublist [Event.syncRecv 0, Event.syncSend 0] (startPre 1) :=
  ⟨(C1_bind_only_after_barrier 1).1, (C1_bind_only_after_barrier 1).2.1,
   (C1_bind_only_after_barrier 1).2.2 0 (by decide)⟩

end Boss
